import Mathlib

/-!
Verification of the attendance-tracker core against its natural-language
specification.  The shallow embedding below is translated from the
repository's sources: the SQLite migrations (`back-end/migrations/*.sql`)
give the persisted data model, its unique indexes, generated date columns,
foreign-key cascades and the `updated_at` trigger; the TypeScript front-end
(`web-ui/app/...`, `preferencesService`/`confirmationCodeService`) gives the
client-side functions.  The Rust service layer is not part of the source
tree, so the few operations only it implements (confirmation-code
validation, the timestamp rendering used by the writers) are modelled from
the specification and marked as such in their doc comments.
-/

namespace AttendanceTracker

/-! ## Timestamps and the derived date columns

The migrations derive `attendance_date` / `submission_date` as
`substr(timestamp, 1, 10)` (STORED generated columns).  `sqliteSubstr`
models SQLite's `substr(X, start, len)` for a positive start index. -/

def sqliteSubstr (s : String) (start len : Nat) : String :=
  String.mk ((s.data.drop (start - 1)).take len)

/-- A broken-down UTC instant, the components SQLite's `CURRENT_TIMESTAMP`
renders (the schema's `DATETIME` columns hold its textual form). -/
structure UtcDateTime where
  year : Nat
  month : Nat
  day : Nat
  hour : Nat
  minute : Nat
  second : Nat
  deriving DecidableEq, Repr

/-- Component bounds of a renderable UTC instant. -/
def UtcDateTime.valid (d : UtcDateTime) : Prop :=
  d.year ≤ 9999 ∧ 1 ≤ d.month ∧ d.month ≤ 12 ∧ 1 ≤ d.day ∧ d.day ≤ 31 ∧
    d.hour ≤ 23 ∧ d.minute ≤ 59 ∧ d.second ≤ 59

instance (d : UtcDateTime) : Decidable d.valid := by
  unfold UtcDateTime.valid; infer_instance

def digitChar (n : Nat) : Char := Char.ofNat (48 + n % 10)

/-- Two-digit zero-padded decimal rendering (faithful for `n ≤ 99`). -/
def pad2 (n : Nat) : String := String.mk [digitChar (n / 10), digitChar n]

/-- Four-digit zero-padded decimal rendering (faithful for `n ≤ 9999`). -/
def pad4 (n : Nat) : String :=
  String.mk [digitChar (n / 1000), digitChar (n / 100), digitChar (n / 10), digitChar n]

/-- The `YYYY-MM-DD` rendering of the UTC calendar date of an instant. -/
def UtcDateTime.dateText (d : UtcDateTime) : String :=
  pad4 d.year ++ "-" ++ pad2 d.month ++ "-" ++ pad2 d.day

/-- Modelled from the spec: the textual form in which the store's writers
persist a `timestamp` (`timestamp (UTC)`; the storage engine's
`CURRENT_TIMESTAMP` produces `YYYY-MM-DD HH:MM:SS` in UTC).  The Rust
writer code is absent from the source tree. -/
def UtcDateTime.timestampText (d : UtcDateTime) : String :=
  d.dateText ++ " " ++ pad2 d.hour ++ ":" ++ pad2 d.minute ++ ":" ++ pad2 d.second

/-! ## The persisted store (migrations 0001 and 0002) -/

/-- A row of `courses` (migration 0001). -/
structure CourseRow where
  id : String
  name : String
  section_number : String
  sections : String
  professor_name : String
  office_hours : String
  news : String
  total_students : Int
  logo_path : String
  confirmation_code : Option String
  confirmation_code_expires_at : Option Nat
  created_at : Nat
  updated_at : Nat
  deriving DecidableEq, Repr

/-- A row of `attendance_records` (migrations 0001/0002); `timestamp` is the
stored text, from which `attendance_date` is derived. -/
structure AttendanceRow where
  id : Nat
  course_id : String
  student_name : String
  student_id : String
  timestamp : String
  deriving DecidableEq, Repr

/-- The STORED generated column `attendance_date` of migration 0002:
`substr(timestamp, 1, 10)`. -/
def AttendanceRow.attendance_date (r : AttendanceRow) : String :=
  sqliteSubstr r.timestamp 1 10

/-- A row of `device_submissions` (migration 0002). -/
structure DeviceRow where
  id : Nat
  course_id : String
  ip_address : String
  timestamp : String
  deriving DecidableEq, Repr

/-- The STORED generated column `submission_date` of migration 0002. -/
def DeviceRow.submission_date (r : DeviceRow) : String :=
  sqliteSubstr r.timestamp 1 10

/-- The four tables of the store. -/
structure DB where
  courses : List CourseRow
  attendance : List AttendanceRow
  devices : List DeviceRow
  preferences : List (String × String)
  deriving DecidableEq, Repr

def DB.hasCourse (db : DB) (cid : String) : Bool :=
  db.courses.any (fun c => c.id == cid)

/-- The key of `idx_unique_daily_attendance`:
`(course_id, student_id, attendance_date)`. -/
def attKey (r : AttendanceRow) : String × String × String :=
  (r.course_id, r.student_id, r.attendance_date)

/-- The key of `idx_unique_device_submission`:
`(course_id, ip_address, submission_date)`. -/
def devKey (r : DeviceRow) : String × String × String :=
  (r.course_id, r.ip_address, r.submission_date)

/-- An `INSERT INTO attendance_records`: fails (transaction rolls back) when
the foreign key to `courses` or the unique index
`idx_unique_daily_attendance` would be violated.  Writes are serialized by
the storage engine, so racing transactions are modelled as consecutive
inserts. -/
def insertAttendanceRow (db : DB) (r : AttendanceRow) : Option DB :=
  if ¬ db.hasCourse r.course_id then none
  else if db.attendance.any (fun x => attKey x == attKey r) then none
  else some { db with attendance := r :: db.attendance }

/-- An `INSERT INTO device_submissions`, under the foreign key and the
unique index `idx_unique_device_submission`. -/
def insertDeviceRow (db : DB) (r : DeviceRow) : Option DB :=
  if ¬ db.hasCourse r.course_id then none
  else if db.devices.any (fun x => devKey x == devKey r) then none
  else some { db with devices := r :: db.devices }

/-- At most one `attendance_records` row per
`(course_id, student_id, attendance_date)`. -/
def attAtMostOne (db : DB) : Prop :=
  ∀ k : String × String × String,
    (db.attendance.countP (fun r => attKey r == k)) ≤ 1

/-- At most one `device_submissions` row per
`(course_id, ip_address, submission_date)`. -/
def devAtMostOne (db : DB) : Prop :=
  ∀ k : String × String × String,
    (db.devices.countP (fun r => devKey r == k)) ≤ 1

/-- An `INSERT INTO courses`: `id` is the primary key and `name` carries the
schema's `UNIQUE` constraint on the raw (untrimmed, case-sensitive) string
(migration 0001 line 10). -/
def insertCourse (db : DB) (c : CourseRow) : Option DB :=
  if db.courses.any (fun x => x.id == c.id) then none
  else if db.courses.any (fun x => x.name == c.name) then none
  else some { db with courses := c :: db.courses }

/-- The name normalization the specification asks uniqueness for:
trimmed then lowercased. -/
def normalizeName (s : String) : String :=
  String.mk
    ((((s.data.dropWhile Char.isWhitespace).reverse.dropWhile
        Char.isWhitespace).reverse).map Char.toLower)

/-- At most one `courses` row per raw `name` string. -/
def namesRawUnique (db : DB) : Prop :=
  ∀ n : String, (db.courses.countP (fun c => c.name == n)) ≤ 1

/-- `DELETE FROM courses WHERE id = cid`: per the `ON DELETE CASCADE`
foreign keys of migrations 0001/0002, referencing `attendance_records` and
`device_submissions` rows are removed in the same transaction.  `none`
models `NotFound`. -/
def deleteCourseRow (db : DB) (cid : String) : Option DB :=
  if db.hasCourse cid then
    some { courses := db.courses.filter (fun c => ¬ (c.id == cid)),
           attendance := db.attendance.filter (fun r => ¬ (r.course_id == cid)),
           devices := db.devices.filter (fun r => ¬ (r.course_id == cid)),
           preferences := db.preferences }
  else none

/-- Every attendance and device row references an existing course. -/
def refIntegrity (db : DB) : Prop :=
  (∀ r ∈ db.attendance, ∃ c ∈ db.courses, c.id = r.course_id) ∧
  (∀ r ∈ db.devices, ∃ c ∈ db.courses, c.id = r.course_id)

/-- The replaceable attributes of a course (full-replacement update). -/
structure CourseDraft where
  name : String
  section_number : String
  sections : String
  professor_name : String
  office_hours : String
  news : String
  total_students : Int
  logo_path : String
  deriving DecidableEq, Repr

/-- The effect on one row of `UPDATE courses SET ... WHERE id = ...`
followed by the `courses_updated_at` trigger of migration 0001, which sets
`updated_at = CURRENT_TIMESTAMP` (the commit instant `now`). -/
def applyDraft (c : CourseRow) (d : CourseDraft) (now : Nat) : CourseRow :=
  { c with
    name := d.name, section_number := d.section_number,
    sections := d.sections, professor_name := d.professor_name,
    office_hours := d.office_hours, news := d.news,
    total_students := d.total_students, logo_path := d.logo_path,
    updated_at := now }

/-- Modelled from the spec: `update_course` replaces the course's
attributes; the persisted `updated_at` comes from the trigger in
migration 0001 (the Rust handler itself is absent from the source tree). -/
def updateCourseRow (db : DB) (cid : String) (d : CourseDraft) (now : Nat) :
    Option DB :=
  if db.hasCourse cid then
    some { db with
      courses := db.courses.map
        (fun c => if c.id == cid then applyDraft c d now else c) }
  else none

/-- The outcomes of the Code Engine's `validate`. -/
inductive CodeValidation where
  | valid | expired | mismatch | courseMissing
  deriving DecidableEq, Repr

/-- Modelled from the spec: the Code Engine's
`validate(course_id, submitted_code, now)` (the Rust engine is absent from
the source tree): load the current code; `now ≥ expires_at` or an absent
code gives `Expired`; a case-sensitive match of a fresh code gives `Valid`;
otherwise `Mismatch`. -/
def validateCode (db : DB) (cid : String) (submitted : String) (now : Nat) :
    CodeValidation :=
  match db.courses.find? (fun c => c.id == cid) with
  | none => .courseMissing
  | some course =>
    match course.confirmation_code, course.confirmation_code_expires_at with
    | some code, some exp =>
      if now ≥ exp then .expired
      else if submitted == code then .valid
      else .mismatch
    | _, _ => .expired

/-! ## Front-end models (web-ui)

The TypeScript client code embedded below:
`useAttendanceWebSocket.ts` (the WebSocket `onmessage` handler),
`confirmationCodeService` (`fetchConfirmationCode`), `preferencesService`
(`deleteCourse`'s local-preferences transition) and the `courseReducer`
actions `SET_SECTIONS` / `SET_SECTION_NUMBER`. -/

/-- A JSON value, the result of a successful `JSON.parse`. -/
inductive JVal where
  | jnull
  | jbool (b : Bool)
  | jnum (n : Int)
  | jstr (s : String)
  | jarr (xs : List JVal)
  | jobj (fields : List (String × JVal))

/-- JavaScript property access `v[k]`: the field's value on an object that
has it, otherwise `none` (`undefined`; a throwing access on `null` is also
`none` here since the handler's `try/catch` gives it the same effect on the
count). -/
def getProp (v : JVal) (k : String) : Option JVal :=
  match v with
  | .jobj fields => (fields.find? (fun f => f.1 == k)).map (fun f => f.2)
  | _ => none

/-- The `onmessage` handler of `useAttendanceWebSocket`: on a payload that
parsed (`some d`) and satisfies
`data.type === 'attendance_update' && typeof data.presentCount === 'number'`
the displayed count becomes `data.presentCount`; every other payload
(including unparsable text, `none`) leaves it unchanged. -/
def wsMessageStep (payload : Option JVal) (count : Int) : Int :=
  match payload with
  | none => count
  | some d =>
    match getProp d "type", getProp d "presentCount" with
    | some (.jstr "attendance_update"), some (.jnum n) => n
    | _, _ => count

/-- The specification's message shape: a JSON object with `type`
`"attendance_update"` and a numeric `presentCount` equal to `n`. -/
def isAttendanceUpdate (d : JVal) (n : Int) : Prop :=
  getProp d "type" = some (.jstr "attendance_update") ∧
  getProp d "presentCount" = some (.jnum n)

/-- The `{code, expires_at, expires_in_seconds}` response shape of
`confirmationCodeService`. -/
structure CodeResponse where
  code : String
  expires_at : String
  expires_in_seconds : Int
  deriving DecidableEq, Repr

/-- The outcome of the `fetch` call inside `fetchConfirmationCode`:
an OK response (whose body may fail to parse), a non-OK status, or a
thrown network error. -/
inductive FetchOutcome where
  | success (parsedBody : Option CodeResponse)
  | httpError (status : Nat)
  | networkFailure
  deriving DecidableEq, Repr

/-- The 404 placeholder of `fetchConfirmationCode`; `iso` abstracts
`Date.toISOString` and `now` is epoch milliseconds, so the expiry is
5000 ms ahead. -/
def pendingResponse (iso : Nat → String) (now : Nat) : CodeResponse :=
  { code := "PENDING", expires_at := iso (now + 5000), expires_in_seconds := 5 }

/-- The catch-all error placeholder of `fetchConfirmationCode`. -/
def errorResponse (iso : Nat → String) (now : Nat) : CodeResponse :=
  { code := "ERROR", expires_at := iso (now + 5000), expires_in_seconds := 5 }

/-- `fetchConfirmationCode` of `confirmationCodeService`: note the JS
guard `if (!courseId) return null` is falsy both for `null` and for the
empty string. -/
def fetchConfirmationCode (iso : Nat → String) (courseId : Option String)
    (outcome : FetchOutcome) (now : Nat) : Option CodeResponse :=
  match courseId with
  | none => none
  | some cid =>
    if cid = "" then none
    else
      match outcome with
      | .success (some body) => some body
      | .success none => some (errorResponse iso now)
      | .httpError status =>
        if status = 404 then some (pendingResponse iso now)
        else some (errorResponse iso now)
      | .networkFailure => some (errorResponse iso now)

/-- The slice of `CoursePreferences` the `deleteCourse` transition reads
(`id` and the map key `courseName`); the remaining display fields do not
influence it. -/
structure CoursePrefs where
  id : Option String
  courseName : String
  deriving DecidableEq, Repr

/-- The local `PreferencesStore`: the active course id plus the
insertion-ordered course map keyed by course name. -/
structure PreferencesStore where
  currentCourseId : Option String
  courses : List (String × CoursePrefs)
  deriving DecidableEq, Repr

/-- `defaultPreferences` of `preferencesService`: one "Default Course"
entry under a freshly generated uuid (`defaultId` here), which is also the
current course id. -/
def defaultPreferencesStore (defaultId : String) : PreferencesStore :=
  { currentCourseId := some defaultId,
    courses := [("Default Course",
      { id := some defaultId, courseName := "Default Course" })] }

/-- The map-removal step of `deleteCourse`: find the entry whose `id`
matches, then delete it by its name key after re-checking
`prefs.courses[courseName]?.id === courseId`. -/
def removeCourseById (courses : List (String × CoursePrefs)) (cid : String) :
    List (String × CoursePrefs) :=
  match courses.find? (fun p => p.2.id == some cid) with
  | some (nm, _) =>
    match courses.find? (fun p => p.1 == nm) with
    | some (_, c) =>
      if c.id == some cid then courses.filter (fun p => ¬ (p.1 == nm))
      else courses
    | none => courses
  | none => courses

/-- The local-preferences transition of `deleteCourse`
(`preferencesService`), for a backend DELETE that succeeded: remove the
course from the map; if it was the current course, switch the preference
to the first remaining course, or overwrite the whole store with the
default preferences (`Object.assign(prefs, defaultPreferences)`) when none
remain. -/
def deleteCourseLocal (defaultStore : PreferencesStore)
    (prefs : PreferencesStore) (courseId : String) : PreferencesStore :=
  let courses1 := removeCourseById prefs.courses courseId
  if prefs.currentCourseId == some courseId then
    match courses1 with
    | [] => defaultStore
    | (_, c) :: _ => { currentCourseId := c.id, courses := courses1 }
  else { prefs with courses := courses1 }

/-- `Array.prototype.sort()` with the default comparator: lexicographic
string order. -/
def jsSort (l : List String) : List String :=
  List.insertionSort (fun a b => a ≤ b) l

/-- The slice of the dashboard `CourseState` that the reducer actions
`SET_SECTIONS` and `SET_SECTION_NUMBER` read and write. -/
structure SectionState where
  sections : List String
  sectionNumber : String
  deriving DecidableEq, Repr

/-- `courseReducer`'s `SET_SECTION_NUMBER`: add the payload to the section
list (sorted) when absent, and make it the primary section. -/
def setSectionNumber (s : SectionState) (payload : String) : SectionState :=
  let newSections :=
    if payload ∈ s.sections then s.sections
    else jsSort (s.sections ++ [payload])
  { sectionNumber := payload, sections := newSections }

/-- JavaScript's `x || d` on an optional string: `d` when `x` is falsy,
i.e. both when the indexing yielded `undefined` (`none`) and when it
yielded the empty string. -/
def jsOrDefault (x : Option String) (d : String) : String :=
  match x with
  | none => d
  | some s => if s = "" then d else s

/-- `courseReducer`'s `SET_SECTIONS`: drop the default `"000"` when more
than one section arrives, sort, and keep the primary only if it survives,
else fall back to `filteredSections[0] || "000"` (the indexing happens
after the in-place `.sort()`, and `||` treats the empty string as falsy). -/
def setSections (s : SectionState) (payload : List String) : SectionState :=
  let filteredSections :=
    if payload.length > 1 ∧ "000" ∈ payload then
      payload.filter (fun x => x != "000")
    else payload
  let currentSectionValid := s.sectionNumber ∈ filteredSections
  let sorted := jsSort filteredSections
  { sections := sorted,
    sectionNumber :=
      if currentSectionValid then s.sectionNumber
      else jsOrDefault sorted.head? "000" }

/-- The specification's sections invariant: sorted, non-empty, primary
contained. -/
def sectionsInvariant (s : SectionState) : Prop :=
  s.sections.Sorted (fun a b : String => a ≤ b) ∧ s.sections ≠ [] ∧
    s.sectionNumber ∈ s.sections

/-! ### Concrete sample data used by the witnesses -/

/-- A two-course local preference store whose current course is `"a"`. -/
def prefsAB : PreferencesStore :=
  { currentCourseId := some "a",
    courses := [("A", { id := some "a", courseName := "A" }),
                ("B", { id := some "b", courseName := "B" })] }

/-- A one-course database with empty attendance and device tables. -/
def demoCourse : CourseRow :=
  { id := "c1", name := "Math", section_number := "000", sections := "[]",
    professor_name := "P", office_hours := "", news := "", total_students := 0,
    logo_path := "", confirmation_code := some "ABC123",
    confirmation_code_expires_at := some 300, created_at := 0, updated_at := 0 }

def demoDB : DB :=
  { courses := [demoCourse], attendance := [], devices := [], preferences := [] }

def demoAttRow : AttendanceRow :=
  { id := 1, course_id := "c1", student_name := "Ada", student_id := "S001",
    timestamp := "2024-03-05 14:30:00" }

def demoDevRow : DeviceRow :=
  { id := 1, course_id := "c1", ip_address := "10.0.0.5",
    timestamp := "2024-03-05 14:30:00" }

/-- A course whose raw name differs from `demoCourse`'s but whose
normalized (trimmed, lowercased) name coincides with it. -/
def demoCourseLower : CourseRow :=
  { demoCourse with id := "c2", name := "math " }

def demoDraft : CourseDraft :=
  { name := "Math", section_number := "001", sections := "[]",
    professor_name := "Q", office_hours := "TTh", news := "n",
    total_students := 30, logo_path := "" }

end AttendanceTracker

namespace AttendanceTracker

/-! ## C2: the derived date column equals the UTC calendar date -/

theorem pad2_data (n : Nat) : (pad2 n).data = [digitChar (n / 10), digitChar n] := rfl

theorem pad4_data (n : Nat) :
    (pad4 n).data = [digitChar (n / 1000), digitChar (n / 100), digitChar (n / 10), digitChar n] :=
  rfl

theorem dateText_data (d : UtcDateTime) :
    d.dateText.data =
      [digitChar (d.year / 1000), digitChar (d.year / 100), digitChar (d.year / 10),
       digitChar d.year, '-', digitChar (d.month / 10), digitChar d.month, '-',
       digitChar (d.day / 10), digitChar d.day] := by
  simp [UtcDateTime.dateText, pad4, pad2, String.data_append]

theorem dateText_length (d : UtcDateTime) : d.dateText.data.length = 10 := by
  rw [dateText_data]; rfl

/-- C2: for every (renderable) UTC instant, the stored generated column
`substr(timestamp, 1, 10)` applied to the persisted timestamp text equals
the `YYYY-MM-DD` rendering of the instant's UTC calendar date. -/
theorem derived_date_eq_utc_date (d : UtcDateTime) (_h : d.valid) :
    sqliteSubstr d.timestampText 1 10 = d.dateText := rfl

/-- Witness for C2 at a concrete valid instant. -/
theorem derived_date_eq_utc_date_witness :
    (UtcDateTime.mk 2024 3 5 14 30 0).valid ∧
      sqliteSubstr (UtcDateTime.mk 2024 3 5 14 30 0).timestampText 1 10 =
        (UtcDateTime.mk 2024 3 5 14 30 0).dateText :=
  ⟨by decide, derived_date_eq_utc_date (UtcDateTime.mk 2024 3 5 14 30 0) (by decide)⟩

/-! ## C1: the unique daily indexes -/

theorem countP_le_one_cons {ρ κ : Type} [BEq κ] [LawfulBEq κ] (key : ρ → κ)
    (l : List ρ) (r : ρ)
    (hl : ∀ k, l.countP (fun x => key x == k) ≤ 1)
    (hdup : l.any (fun x => key x == key r) = false) :
    ∀ k, ((r :: l).countP (fun x => key x == k)) ≤ 1 := by
  intro k
  rw [List.countP_cons]
  by_cases hk : (key r == k) = true
  · have hk' : key r = k := eq_of_beq hk
    have hzero : l.countP (fun x => key x == k) = 0 := by
      rw [List.countP_eq_zero]
      intro a ha
      have := (List.any_eq_false.mp hdup) a ha
      rw [← hk']
      simpa using this
    simp [hzero, hk]
  · simpa [hk] using hl k

theorem any_cons_of_key_eq {ρ κ : Type} [BEq κ] [LawfulBEq κ] (key : ρ → κ)
    (l : List ρ) (r1 r2 : ρ) (h : key r2 = key r1) :
    ((r1 :: l).any (fun x => key x == key r2)) = true := by
  simp [List.any_cons, h]

/-- C1: the storage-level unique indexes `idx_unique_daily_attendance` and
`idx_unique_device_submission` keep at most one AttendanceRecord row per
`(course_id, student_id, attendance_date)` and at most one DeviceSubmission
row per `(course_id, ip_address, submission_date)`: a successful insert
preserves the at-most-one invariant, and a second (racing, serialized by
the storage engine) insert with the same key cannot also commit. -/
theorem unique_daily_indexes (db dbA dbD : DB) (r1 r2 : AttendanceRow)
    (d1 d2 : DeviceRow) (hA : attAtMostOne db) (hD : devAtMostOne db) :
    (insertAttendanceRow db r1 = some dbA →
      attAtMostOne dbA ∧ (attKey r2 = attKey r1 → insertAttendanceRow dbA r2 = none)) ∧
    (insertDeviceRow db d1 = some dbD →
      devAtMostOne dbD ∧ (devKey d2 = devKey d1 → insertDeviceRow dbD d2 = none)) := by
  constructor
  · intro h
    unfold insertAttendanceRow at h
    by_cases hc : db.hasCourse r1.course_id
    · rw [if_neg (by simpa using hc)] at h
      by_cases hdup : db.attendance.any (fun x => attKey x == attKey r1)
      · rw [if_pos hdup] at h; exact absurd h (by simp)
      · rw [if_neg hdup] at h
        have hdb : dbA = { db with attendance := r1 :: db.attendance } :=
          (Option.some.inj h).symm
        subst hdb
        refine ⟨countP_le_one_cons attKey db.attendance r1 hA (by simpa using hdup), ?_⟩
        intro hkeys
        unfold insertAttendanceRow
        have hcid : r2.course_id = r1.course_id := congrArg (fun k => k.1) hkeys
        have hc2 : DB.hasCourse { db with attendance := r1 :: db.attendance } r2.course_id = true := by
          simpa [DB.hasCourse, hcid] using hc
        rw [if_neg (by simpa using hc2),
          if_pos (any_cons_of_key_eq attKey db.attendance r1 r2 hkeys)]
    · rw [if_pos (by simpa using hc)] at h; exact absurd h (by simp)
  · intro h
    unfold insertDeviceRow at h
    by_cases hc : db.hasCourse d1.course_id
    · rw [if_neg (by simpa using hc)] at h
      by_cases hdup : db.devices.any (fun x => devKey x == devKey d1)
      · rw [if_pos hdup] at h; exact absurd h (by simp)
      · rw [if_neg hdup] at h
        have hdb : dbD = { db with devices := d1 :: db.devices } :=
          (Option.some.inj h).symm
        subst hdb
        refine ⟨countP_le_one_cons devKey db.devices d1 hD (by simpa using hdup), ?_⟩
        intro hkeys
        unfold insertDeviceRow
        have hcid : d2.course_id = d1.course_id := congrArg (fun k => k.1) hkeys
        have hc2 : DB.hasCourse { db with devices := d1 :: db.devices } d2.course_id = true := by
          simpa [DB.hasCourse, hcid] using hc
        rw [if_neg (by simpa using hc2),
          if_pos (any_cons_of_key_eq devKey db.devices d1 d2 hkeys)]
    · rw [if_pos (by simpa using hc)] at h; exact absurd h (by simp)

/-- Witness for C1 at a concrete database: the first insert commits, the
racing duplicate is rejected, on both tables. -/
theorem unique_daily_indexes_witness :
    attAtMostOne { demoDB with attendance := [demoAttRow] } ∧
      insertAttendanceRow { demoDB with attendance := [demoAttRow] } demoAttRow = none ∧
      devAtMostOne { demoDB with devices := [demoDevRow] } ∧
      insertDeviceRow { demoDB with devices := [demoDevRow] } demoDevRow = none := by
  have h := unique_daily_indexes demoDB
    { demoDB with attendance := [demoAttRow] } { demoDB with devices := [demoDevRow] }
    demoAttRow demoAttRow demoDevRow demoDevRow
    (fun k => by simp [demoDB]) (fun k => by simp [demoDB])
  have hatt := h.1 (by decide)
  have hdev := h.2 (by decide)
  exact ⟨hatt.1, hatt.2 rfl, hdev.1, hdev.2 rfl⟩

/-! ## C3: confirmation-code validity is exclusive of the expiry instant -/

/-- C3: for every course with a stored code and expiry, `validate` returns
`Expired` whenever `now ≥ expires_at` (a submission arriving exactly at
`expires_at` is rejected), returns `Valid` exactly when the submitted code
equals the stored one case-sensitively and `now < expires_at`, and returns
`Mismatch` otherwise. -/
theorem validate_exclusive_expiry (db : DB) (cid submitted code : String)
    (now exp : Nat) (course : CourseRow)
    (hfind : db.courses.find? (fun c => c.id == cid) = some course)
    (hcode : course.confirmation_code = some code)
    (hexp : course.confirmation_code_expires_at = some exp) :
    (now ≥ exp → validateCode db cid submitted now = .expired) ∧
    (validateCode db cid submitted now = .valid ↔ submitted = code ∧ now < exp) ∧
    (now < exp → submitted ≠ code → validateCode db cid submitted now = .mismatch) := by
  have hval : validateCode db cid submitted now =
      if now ≥ exp then .expired
      else if submitted == code then .valid else .mismatch := by
    simp only [validateCode, hfind, hcode, hexp]
  rw [hval]
  by_cases hge : now ≥ exp
  · rw [if_pos hge]
    refine ⟨fun _ => rfl, ?_, fun hlt _ => absurd hge (by omega)⟩
    constructor
    · intro hv; exact absurd hv (by simp)
    · rintro ⟨-, hlt⟩; exact absurd hge (by omega)
  · rw [if_neg hge]
    have hlt : now < exp := by omega
    by_cases heq : (submitted == code) = true
    · rw [if_pos heq]
      exact ⟨fun hge2 => absurd hge2 hge, by simp [eq_of_beq heq, hlt],
        fun _ hne => absurd (eq_of_beq heq) hne⟩
    · rw [if_neg heq]
      refine ⟨fun hge2 => absurd hge2 hge, ?_, fun _ _ => rfl⟩
      constructor
      · intro hv; exact absurd hv (by simp)
      · rintro ⟨hsc, -⟩; exact absurd (beq_iff_eq.mpr hsc) heq

/-- Witness for C3: submitting the right code exactly at the expiry
instant is `Expired`; one second earlier it is `Valid`. -/
theorem validate_exclusive_expiry_witness :
    validateCode demoDB "c1" "ABC123" 300 = .expired ∧
      (validateCode demoDB "c1" "ABC123" 299 = .valid ↔
        ("ABC123" : String) = "ABC123" ∧ (299 : Nat) < 300) := by
  have h300 := validate_exclusive_expiry demoDB "c1" "ABC123" "ABC123" 300 300
    demoCourse (by decide) rfl rfl
  have h299 := validate_exclusive_expiry demoDB "c1" "ABC123" "ABC123" 299 300
    demoCourse (by decide) rfl rfl
  exact ⟨h300.1 (le_refl 300), h299.2.1⟩

/-! ## C4: course-name uniqueness is on the raw string, not normalized -/

/-- C4 counterexample: the storage layer's `UNIQUE` constraint is on the
raw `courses.name`; two distinct stored courses whose names coincide after
trimming and lowercasing can both be inserted. -/
theorem courses_name_unique_counterexample :
    insertCourse demoDB demoCourseLower =
        some { demoDB with courses := [demoCourseLower, demoCourse] } ∧
      normalizeName demoCourseLower.name = normalizeName demoCourse.name ∧
      demoCourseLower.name ≠ demoCourse.name := by
  refine ⟨by decide, by decide, by decide⟩

/-- C4 amended: the storage layer enforces uniqueness of the raw, exact
`courses.name` string only: a successful insert preserves at-most-one row
per raw name, and inserting a second course with the identical raw name
fails; case-insensitive collisions are not prevented at the storage layer. -/
theorem courses_raw_name_unique (db db' : DB) (c c2 : CourseRow)
    (h1 : namesRawUnique db) (h : insertCourse db c = some db') :
    namesRawUnique db' ∧ (c2.name = c.name → insertCourse db' c2 = none) := by
  unfold insertCourse at h
  by_cases hid : db.courses.any (fun x => x.id == c.id)
  · rw [if_pos hid] at h; exact absurd h (by simp)
  · rw [if_neg hid] at h
    by_cases hname : db.courses.any (fun x => x.name == c.name)
    · rw [if_pos hname] at h; exact absurd h (by simp)
    · rw [if_neg hname] at h
      have hdb : db' = { db with courses := c :: db.courses } :=
        (Option.some.inj h).symm
      subst hdb
      refine ⟨countP_le_one_cons (fun x : CourseRow => x.name) db.courses c
        (fun n => h1 n) (by simpa using hname), ?_⟩
      intro he
      unfold insertCourse
      by_cases hid2 : (c :: db.courses).any (fun x => x.id == c2.id)
      · rw [if_pos hid2]
      · rw [if_neg hid2,
          if_pos (any_cons_of_key_eq (fun x => x.name) db.courses c c2 he)]

/-- Witness for the amended C4: after inserting `demoCourse`, inserting a
course with the identical raw name fails. -/
theorem courses_raw_name_unique_witness :
    namesRawUnique demoDB ∧
      insertCourse demoDB { demoCourseLower with name := "Math" } = none := by
  have h := courses_raw_name_unique
    { courses := [], attendance := [], devices := [], preferences := [] }
    demoDB demoCourse { demoCourseLower with name := "Math" }
    (fun n => by simp) (by decide)
  exact ⟨h.1, h.2 rfl⟩

/-! ## C5: deleting a course cascades -/

/-- C5: when `delete_course` succeeds, no AttendanceRecord row and no
DeviceSubmission row with the deleted `course_id` remains, and referential
integrity (every attendance and device row references an existing course)
is preserved by the deletion. -/
theorem delete_course_cascades (db db' : DB) (cid : String)
    (h : deleteCourseRow db cid = some db') :
    (∀ r ∈ db'.attendance, r.course_id ≠ cid) ∧
    (∀ r ∈ db'.devices, r.course_id ≠ cid) ∧
    (refIntegrity db → refIntegrity db') := by
  unfold deleteCourseRow at h
  by_cases hc : db.hasCourse cid = true
  · rw [if_pos hc] at h
    have hdb : db' =
        { courses := db.courses.filter (fun c => ¬ (c.id == cid)),
          attendance := db.attendance.filter (fun r => ¬ (r.course_id == cid)),
          devices := db.devices.filter (fun r => ¬ (r.course_id == cid)),
          preferences := db.preferences } := (Option.some.inj h).symm
    subst hdb
    refine ⟨?_, ?_, ?_⟩
    · intro r hr
      have := (List.mem_filter.mp hr).2
      simpa using this
    · intro r hr
      have := (List.mem_filter.mp hr).2
      simpa using this
    · rintro ⟨hAtt, hDev⟩
      constructor
      · intro r hr
        obtain ⟨hrm, hrc⟩ := List.mem_filter.mp hr
        obtain ⟨c, hcm, hcid⟩ := hAtt r hrm
        refine ⟨c, List.mem_filter.mpr ⟨hcm, ?_⟩, hcid⟩
        have : r.course_id ≠ cid := by simpa using hrc
        simp [hcid, this]
      · intro r hr
        obtain ⟨hrm, hrc⟩ := List.mem_filter.mp hr
        obtain ⟨c, hcm, hcid⟩ := hDev r hrm
        refine ⟨c, List.mem_filter.mpr ⟨hcm, ?_⟩, hcid⟩
        have : r.course_id ≠ cid := by simpa using hrc
        simp [hcid, this]
  · rw [if_neg hc] at h; exact absurd h (by simp)

/-- Witness for C5 on a concrete database holding one attendance row and
one device row for the deleted course. -/
theorem delete_course_cascades_witness :
    (∀ r ∈ (DB.mk [] [] [] []).attendance, r.course_id ≠ "c1") ∧
    (∀ r ∈ (DB.mk [] [] [] []).devices, r.course_id ≠ "c1") ∧
    (refIntegrity { demoDB with attendance := [demoAttRow], devices := [demoDevRow] } →
      refIntegrity (DB.mk [] [] [] [])) :=
  delete_course_cascades
    { demoDB with attendance := [demoAttRow], devices := [demoDevRow] }
    (DB.mk [] [] [] []) "c1" (by decide)

/-! ## C8: `updated_at` is monotonically non-decreasing -/

/-- C8: a full-replacement update of a course row sets `updated_at` to the
commit instant via the `courses_updated_at` trigger; under the monotonic
clock (the commit instant is not earlier than the row's last write), the
stored `updated_at` never decreases. -/
theorem updated_at_monotone (db db' : DB) (cid : String) (d : CourseDraft)
    (now : Nat) (c : CourseRow) (hc : c ∈ db.courses) (hid : c.id = cid)
    (hclock : c.updated_at ≤ now)
    (h : updateCourseRow db cid d now = some db') :
    ∃ c' ∈ db'.courses, c'.id = cid ∧ c'.updated_at = now ∧
      c.updated_at ≤ c'.updated_at := by
  unfold updateCourseRow at h
  by_cases hcc : db.hasCourse cid = true
  · rw [if_pos hcc] at h
    have hdb : db' = { db with
        courses := db.courses.map
          (fun c => if c.id == cid then applyDraft c d now else c) } :=
      (Option.some.inj h).symm
    subst hdb
    refine ⟨applyDraft c d now, List.mem_map.mpr ⟨c, hc, by simp [hid]⟩,
      ?_, ?_, ?_⟩
    · simpa [applyDraft] using hid
    · simp [applyDraft]
    · simpa [applyDraft] using hclock
  · rw [if_neg hcc] at h; exact absurd h (by simp)

/-- Witness for C8: a concrete update bumps `updated_at` from 0 to 17. -/
theorem updated_at_monotone_witness :
    ∃ c' ∈ (DB.mk [applyDraft demoCourse demoDraft 17] [] [] []).courses,
      c'.id = "c1" ∧ c'.updated_at = 17 ∧ demoCourse.updated_at ≤ c'.updated_at :=
  updated_at_monotone demoDB (DB.mk [applyDraft demoCourse demoDraft 17] [] [] [])
    "c1" demoDraft 17 demoCourse (by decide) rfl (by decide) (by decide)

/-! ## C6: deleting the current course does not clear the preference -/

/-- C6 counterexample: with courses `A` (current) and `B`, deleting `A`
leaves the preference pointing at `B` — it is redirected, not cleared. -/
theorem delete_course_pref_counterexample :
    prefsAB.currentCourseId = some "a" ∧
      (deleteCourseLocal (defaultPreferencesStore "d") prefsAB "a").currentCourseId =
        some "b" ∧
      some "b" ≠ (none : Option String) ∧ ("b" : String) ≠ "" := by
  refine ⟨rfl, by decide, by decide, by decide⟩

/-- C6 amended: when the deleted course is the current one, `deleteCourse`
redirects the preference: it becomes the id of the first course remaining
in the local map, and when none remain the whole store is overwritten with
the default preferences (whose current id is the freshly generated default
course id) — in no case is the preference cleared to empty/unset. -/
theorem delete_course_redirects_pref (defaultStore prefs : PreferencesStore)
    (cid : String) (hcur : prefs.currentCourseId = some cid) :
    (removeCourseById prefs.courses cid = [] →
      deleteCourseLocal defaultStore prefs cid = defaultStore) ∧
    (∀ nm c rest, removeCourseById prefs.courses cid = (nm, c) :: rest →
      (deleteCourseLocal defaultStore prefs cid).currentCourseId = c.id) := by
  constructor
  · intro hemp
    simp [deleteCourseLocal, hcur, hemp]
  · intro nm c rest hcons
    simp [deleteCourseLocal, hcur, hcons]

/-- Witness for the amended C6: deleting `"a"` out of `prefsAB` makes the
remaining course `B`'s id the preference. -/
theorem delete_course_redirects_pref_witness :
    (deleteCourseLocal (defaultPreferencesStore "d") prefsAB "a").currentCourseId =
      (CoursePrefs.mk (some "b") "B").id :=
  (delete_course_redirects_pref (defaultPreferencesStore "d") prefsAB "a" rfl).2
    "B" (CoursePrefs.mk (some "b") "B") [] (by decide)

/-! ## C7: the WebSocket handler updates the count exactly on shape -/

/-- C7: the displayed present-count is updated exactly when the payload
parsed as JSON with `type = "attendance_update"` and a numeric
`presentCount`, and then to that number; any other payload — including
unparsable text (`none`) — leaves the count unchanged (and the handler,
being total, raises nothing to the caller). -/
theorem ws_update_exactly_on_shape (payload : Option JVal) (count : Int) :
    (∀ d n, payload = some d → isAttendanceUpdate d n →
      wsMessageStep payload count = n) ∧
    ((∀ d n, payload = some d → ¬ isAttendanceUpdate d n) →
      wsMessageStep payload count = count) := by
  constructor
  · rintro d n rfl ⟨ht, hp⟩
    simp [wsMessageStep, ht, hp]
  · intro hni
    cases payload with
    | none => rfl
    | some d =>
      show (match getProp d "type", getProp d "presentCount" with
        | some (.jstr "attendance_update"), some (.jnum n) => n
        | _, _ => count) = count
      split
      · next n h1 h2 => exact absurd ⟨h1, h2⟩ (hni d n rfl)
      · rfl

/-- Witness for C7: a well-shaped payload sets the count to 5; an
ill-shaped one leaves it at 0. -/
theorem ws_update_exactly_on_shape_witness :
    wsMessageStep
        (some (.jobj [("type", .jstr "attendance_update"), ("presentCount", .jnum 5)]))
        0 = 5 ∧
      wsMessageStep (some (.jstr "hello")) 0 = 0 :=
  ⟨(ws_update_exactly_on_shape
      (some (.jobj [("type", .jstr "attendance_update"), ("presentCount", .jnum 5)]))
      0).1 _ 5 rfl ⟨rfl, rfl⟩,
   (ws_update_exactly_on_shape (some (.jstr "hello")) 0).2
     (by
       intro d n hd hupd
       cases hd
       exact absurd hupd.1 (by simp [getProp]))⟩

/-! ## C9: the reducer's sections invariant -/

/-- C9 counterexample: from an invariant-satisfying state, `SET_SECTIONS`
with the empty list produces an empty section list (with primary falling
back to `"000"`, not contained in it) — the invariant is not preserved. -/
theorem reducer_sections_counterexample :
    sectionsInvariant (SectionState.mk ["001"] "001") ∧
      (setSections (SectionState.mk ["001"] "001") []).sections = [] ∧
      ¬ sectionsInvariant (setSections (SectionState.mk ["001"] "001") []) := by
  refine ⟨⟨by simp, by decide, by decide⟩, rfl, ?_⟩
  rintro ⟨-, hne, -⟩
  exact hne rfl

/-- C9 amended: `SET_SECTION_NUMBER` always preserves the sections
invariant (sorted, non-empty, contains the primary), and `SET_SECTIONS`
preserves it whenever the filtered payload (after dropping `"000"` when
the payload has several entries including it) is non-empty and, in case
the old primary does not survive the filter, contains no empty-string
label; outside these conditions the fallback
`filteredSections[0] || "000"` (with JavaScript's `||` treating the empty
string as falsy) can leave the primary `"000"` outside the section list,
as the counterexample shows for the empty payload. -/
theorem reducer_sections_invariant (s : SectionState) (p : String)
    (ps : List String) (hs : sectionsInvariant s)
    (hne : (if ps.length > 1 ∧ "000" ∈ ps then ps.filter (fun x => x != "000")
      else ps) ≠ [])
    (hok : s.sectionNumber ∈ (if ps.length > 1 ∧ "000" ∈ ps then
        ps.filter (fun x => x != "000") else ps) ∨
      "" ∉ (if ps.length > 1 ∧ "000" ∈ ps then
        ps.filter (fun x => x != "000") else ps)) :
    sectionsInvariant (setSectionNumber s p) ∧
      sectionsInvariant (setSections s ps) := by
  obtain ⟨hsort, hnemp, hmem⟩ := hs
  constructor
  · unfold setSectionNumber
    by_cases hp : p ∈ s.sections
    · exact ⟨by simpa [hp] using hsort, by simpa [hp] using hnemp,
        by simp [hp]⟩
    · refine ⟨?_, ?_, ?_⟩
      · simpa [hp, jsSort] using
          List.sorted_insertionSort (fun a b : String => a ≤ b) (s.sections ++ [p])
      · simp only [hp, if_neg, sectionsInvariant]
        intro hcon
        have : (jsSort (s.sections ++ [p])).length = 0 := by
          simpa [hp] using congrArg List.length hcon
        rw [jsSort, List.length_insertionSort] at this
        simp at this
      · have : p ∈ jsSort (s.sections ++ [p]) := by
          rw [jsSort, List.mem_insertionSort]
          simp
        simpa [hp] using this
  · unfold setSections
    set f := (if ps.length > 1 ∧ "000" ∈ ps then
      ps.filter (fun x => x != "000") else ps) with hf
    refine ⟨?_, ?_, ?_⟩
    · exact List.sorted_insertionSort (fun a b : String => a ≤ b) f
    · intro hcon
      have : (jsSort f).length = 0 := by simpa using congrArg List.length hcon
      rw [jsSort, List.length_insertionSort] at this
      exact hne (List.length_eq_zero.mp this)
    · by_cases hv : s.sectionNumber ∈ f
      · simp only [hv, if_pos]
        rw [jsSort, List.mem_insertionSort]
        exact hv
      · simp only [hv, if_neg]
        have hemp : "" ∉ f := hok.resolve_left hv
        have hjs : jsSort f ≠ [] := by
          intro hcon
          have : (jsSort f).length = 0 := by simpa using congrArg List.length hcon
          rw [jsSort, List.length_insertionSort] at this
          exact hne (List.length_eq_zero.mp this)
        cases hgs : jsSort f with
        | nil => exact absurd hgs hjs
        | cons a t =>
          have ha : a ∈ f := by
            rw [← List.mem_insertionSort (r := fun a b : String => a ≤ b) (l := f)]
            rw [jsSort] at hgs
            exact hgs ▸ List.mem_cons_self a t
          have hane : a ≠ "" := fun hcon => hemp (hcon ▸ ha)
          simp [hgs, jsOrDefault, hane]

/-- Witness for the amended C9 at a concrete state and payloads. -/
theorem reducer_sections_invariant_witness :
    sectionsInvariant (setSectionNumber (SectionState.mk ["001"] "001") "003") ∧
      sectionsInvariant (setSections (SectionState.mk ["001"] "001") ["002", "004"]) :=
  reducer_sections_invariant (SectionState.mk ["001"] "001") "003" ["002", "004"]
    ⟨by simp, by decide, by decide⟩ (by decide) (Or.inr (by decide))

/-! ## C10: `fetchConfirmationCode` totality and outcomes -/

/-- C10 counterexample: the guard `if (!courseId) return null` is falsy for
the empty string too, so a non-null course id can also yield `null`. -/
theorem fetch_code_null_counterexample :
    fetchConfirmationCode (fun _ => "") (some "") .networkFailure 0 = none ∧
      (some "" : Option String) ≠ none := ⟨rfl, by decide⟩

/-- C10 amended: `fetchConfirmationCode` never throws; it returns `null`
exactly when the course id is `null` or the empty string; a 404 yields the
`"PENDING"` placeholder expiring 5000 ms ahead; any other non-OK status,
network failure or body-parse failure yields the `"ERROR"` placeholder
expiring 5000 ms ahead; an OK response with a parsable body is returned
as-is. -/
theorem fetch_code_cases (iso : Nat → String) (cid : String)
    (outcome : FetchOutcome) (now : Nat) (h : cid ≠ "") :
    (fetchConfirmationCode iso none outcome now = none) ∧
    (fetchConfirmationCode iso (some "") outcome now = none) ∧
    (∀ body, outcome = .success (some body) →
      fetchConfirmationCode iso (some cid) outcome now = some body) ∧
    (outcome = .success none →
      fetchConfirmationCode iso (some cid) outcome now =
        some (errorResponse iso now)) ∧
    (outcome = .httpError 404 →
      fetchConfirmationCode iso (some cid) outcome now =
        some (pendingResponse iso now)) ∧
    (∀ st, st ≠ 404 → outcome = .httpError st →
      fetchConfirmationCode iso (some cid) outcome now =
        some (errorResponse iso now)) ∧
    (outcome = .networkFailure →
      fetchConfirmationCode iso (some cid) outcome now =
        some (errorResponse iso now)) ∧
    (pendingResponse iso now).code = "PENDING" ∧
    (pendingResponse iso now).expires_at = iso (now + 5000) ∧
    (errorResponse iso now).code = "ERROR" ∧
    (errorResponse iso now).expires_at = iso (now + 5000) := by
  refine ⟨rfl, by simp [fetchConfirmationCode], ?_, ?_, ?_, ?_, ?_,
    rfl, rfl, rfl, rfl⟩
  · rintro body rfl; simp [fetchConfirmationCode, h]
  · rintro rfl; simp [fetchConfirmationCode, h]
  · rintro rfl; simp [fetchConfirmationCode, h]
  · rintro st hst rfl; simp [fetchConfirmationCode, h, hst]
  · rintro rfl; simp [fetchConfirmationCode, h]

/-- Witness for the amended C10: a 404 for a real course id yields the
`PENDING` placeholder. -/
theorem fetch_code_cases_witness :
    fetchConfirmationCode (fun _ => "t") (some "abc") (.httpError 404) 0 =
      some (pendingResponse (fun _ => "t") 0) :=
  ((fetch_code_cases (fun _ => "t") "abc" (.httpError 404) 0
    (by decide)).2.2.2.2.1) rfl

end AttendanceTracker
